import Mathlib

/-!
Verification development for the super-bot trading service.

The embedding models the two parts of the code base with real correctness
requirements:

* the position ledger (`app/database/transaction_repository.py`):
  an append-only transaction log with derived balance / position /
  average-buy-price / portfolio-value queries and the `buy` / `sell`
  operations, and
* the agent pipeline (`app/agent/nodes/*.py`, `app/agent/graph/trading_graph.py`,
  `app/controller/trading/routes.py`): seven stages sharing one mutable
  context with a single nullable error slot.

Conventions of the embedding:

* Monetary amounts, quantities and prices are rationals (`Rat`); the source
  stores `DECIMAL` columns and converts through Python floats.
* The ledger is a chronological list (`List Transaction`), oldest first; the
  SQL `ORDER BY created_at DESC LIMIT 1` becomes the last matching element.
* Nullable columns become `Option`; Python truthiness on strings (where the
  empty string is falsy) is the function `truthy`.
* Calls to external collaborators (HTTP clients and the LLM executor) are
  passed in as explicit `Except`/`Option` parameters: a `.error`/`none`
  value is the exception branch the node catches.
* Numeric string formatting inside log lines and interpolated error
  messages (Python `:,.2f` style) is elided; the messages keep their fixed
  prefixes and interpolated symbols.
-/

namespace SuperBot

/-- `action` column of a transaction row: `"buy"` or `"sell"`. -/
inductive Action where
  | buy
  | sell
deriving DecidableEq, Repr

/-- One immutable row of the `transactions` table
(`app/models/database_models.py`). The `id` and `created_at` columns are
replaced by the position in the chronological ledger list. -/
structure Transaction where
  symbol : String
  action : Action
  quantity : Rat
  price : Rat
  total : Rat
  portfolio_value : Option Rat
  available_usd : Option Rat
  pnl : Option Rat
  reason : Option String
  agent_name : String
deriving DecidableEq, Repr

/-- Domain failures raised by the ledger
(`InsufficientFundsError`, `InsufficientQuantityError`). -/
inductive LedgerError where
  | insufficientFunds (needed available : Rat)
  | insufficientQuantity (requested available : Rat)
deriving DecidableEq, Repr

/-- `TransactionRepository.get_available_balance`: the `available_usd`
snapshot of the most recent transaction whose snapshot is non-null,
defaulting to 10000.  The source returns
`float(balance) if balance else 10000.0`, so a latest snapshot of `0`
(falsy in Python) also yields the default. -/
def get_available_balance (ledger : List Transaction) : Rat :=
  match (ledger.filterMap (fun t => t.available_usd)).getLast? with
  | some balance => if balance = 0 then 10000 else balance
  | none => 10000

/-- `TransactionRepository.get_position_quantity`: total bought minus total
sold for a symbol. -/
def get_position_quantity (ledger : List Transaction) (symbol : String) : Rat :=
  ((ledger.filter (fun t => decide (t.symbol = symbol ∧ t.action = Action.buy))).map
      (fun t => t.quantity)).sum -
  ((ledger.filter (fun t => decide (t.symbol = symbol ∧ t.action = Action.sell))).map
      (fun t => t.quantity)).sum

/-- The buy rows of a symbol, as selected by the SQL filter
`symbol == symbol AND action == "buy"`. -/
def buys_of (ledger : List Transaction) (symbol : String) : List Transaction :=
  ledger.filter (fun t => decide (t.symbol = symbol ∧ t.action = Action.buy))

/-- `TransactionRepository.get_average_buy_price`: cost-weighted mean over
all buy rows of the symbol; `None` when `SUM(quantity)` is null (no rows)
or zero. -/
def get_average_buy_price (ledger : List Transaction) (symbol : String) : Option Rat :=
  let total_cost := ((buys_of ledger symbol).map (fun t => t.quantity * t.price)).sum
  let total_quantity := ((buys_of ledger symbol).map (fun t => t.quantity)).sum
  if total_quantity = 0 then none else some (total_cost / total_quantity)

/-- `TransactionRepository.calculate_portfolio_value`: available balance
plus, for every symbol in `current_prices` with a strictly positive
position, position times price. -/
def calculate_portfolio_value (ledger : List Transaction)
    (current_prices : List (String × Rat)) : Rat :=
  current_prices.foldl
    (fun total_value sp =>
      let quantity := get_position_quantity ledger sp.1
      if quantity > 0 then total_value + quantity * sp.2 else total_value)
    (get_available_balance ledger)

/-- `TransactionRepository.buy`: validates funds, then appends a buy row.
Returns the created row together with the extended ledger. -/
def buyOp (ledger : List Transaction) (symbol : String) (quantity price : Rat)
    (reason : Option String) (agent_name : String) :
    Except LedgerError (Transaction × List Transaction) :=
  let total_cost := quantity * price
  let available_usd := get_available_balance ledger
  if total_cost > available_usd then
    .error (.insufficientFunds total_cost available_usd)
  else
    let new_available_usd := available_usd - total_cost
    let portfolio_value := calculate_portfolio_value ledger [(symbol, price)] + total_cost
    let transaction : Transaction :=
      { symbol := symbol
        action := .buy
        quantity := quantity
        price := price
        total := total_cost
        portfolio_value := some portfolio_value
        available_usd := some new_available_usd
        pnl := none
        reason := reason
        agent_name := agent_name }
    .ok (transaction, ledger ++ [transaction])

/-- `TransactionRepository.sell`: validates the held quantity, computes the
realized PnL against the average buy price, then appends a sell row. -/
def sellOp (ledger : List Transaction) (symbol : String) (quantity price : Rat)
    (reason : Option String) (agent_name : String) :
    Except LedgerError (Transaction × List Transaction) :=
  let available_quantity := get_position_quantity ledger symbol
  if quantity > available_quantity then
    .error (.insufficientQuantity quantity available_quantity)
  else
    let total_revenue := quantity * price
    let available_usd := get_available_balance ledger
    let new_available_usd := available_usd + total_revenue
    let pnl : Option Rat :=
      match get_average_buy_price ledger symbol with
      | some avg_buy_price => some ((price - avg_buy_price) * quantity)
      | none => none
    let portfolio_value := calculate_portfolio_value ledger [(symbol, price)]
    let transaction : Transaction :=
      { symbol := symbol
        action := .sell
        quantity := quantity
        price := price
        total := total_revenue
        portfolio_value := some portfolio_value
        available_usd := some new_available_usd
        pnl := pnl
        reason := reason
        agent_name := agent_name }
    .ok (transaction, ledger ++ [transaction])

/-- Python truthiness of the nullable string slots of the run context:
a missing value and the empty string are falsy. -/
def truthy : Option String → Bool
  | none => false
  | some s => decide (s ≠ "")

/-- `state.get("symbols") or default`: Python `or` falls through to the
default when the key is missing, `None`, or the empty list. -/
def symbols_or (stored : Option (List String)) (default : List String) : List String :=
  match stored with
  | some (x :: xs) => x :: xs
  | _ => default

/-- Structured LLM output for the news stage
(`app/models/news_sentiment_models.py`). -/
structure NewsSentimentAnalysis where
  context_summary : String
  market_opinion : String
  sentiment : String
deriving DecidableEq, Repr

/-- Structured LLM output for the technical stage
(`app/models/technical_analysis_models.py`). -/
structure TechnicalAnalysis where
  trend_analysis : String
  crossover_status : String
  market_momentum : String
  conclusion : String
deriving DecidableEq, Repr

/-- One entry of the Fear & Greed response
(`app/models/fear_greed_models.py`). -/
structure FearGreedValue where
  value : Int
  value_classification : String
  timestamp : String
deriving DecidableEq, Repr

/-- Structured LLM output of the Strategist
(`app/models/trading_committee_models.py`). The pydantic model also
carries entry/stop/take-profit prices that the node never stores. -/
structure StrategistProposal where
  direction : String
  justification : String
  key_factors : List String
  confidence_level : String
deriving DecidableEq, Repr

/-- Structured LLM output of the Skeptic
(`app/models/skeptic_models.py`). -/
structure SkepticCritique where
  overall_assessment : String
  main_critique : String
  identified_risks : List String
  contradictions : List String
  missing_considerations : List String
  recommendation : String
deriving DecidableEq, Repr

/-- Structured LLM output of the Executor
(`app/models/executor_models.py`). -/
structure ExecutorDecision where
  final_decision : String
  reasoning : String
  strategist_points_accepted : List String
  skeptic_points_accepted : List String
  key_factors_for_decision : List String
  risk_assessment : String
  confidence_level : String
  position_context_considered : Bool
deriving DecidableEq, Repr

/-- The `executor_final_params` dictionary stored by the Executor node. -/
structure ExecutorFinalParams where
  risk_assessment : String
  confidence_level : String
  position_context_considered : Bool
  has_current_position : Bool
  current_quantity : Rat
  available_usd : Rat
deriving DecidableEq, Repr

/-- The shared run context (`app/agent/state/agent_state.py`): one mutable
record per pipeline run, every analysis field optional, with a single
nullable error slot. -/
structure AgentState where
  symbols : Option (List String) := none
  news_limit : Option Int := none
  news_context_summary : Option String := none
  news_market_opinion : Option String := none
  news_sentiment : Option String := none
  technical_analysis_trend : Option String := none
  technical_analysis_crossover : Option String := none
  technical_analysis_momentum : Option String := none
  technical_analysis_conclusion : Option String := none
  fear_greed_index : Option Int := none
  fear_greed_classification : Option String := none
  current_price : Option Rat := none
  nearest_support : Option Rat := none
  distance_to_support : Option Rat := none
  nearest_resistance : Option Rat := none
  distance_to_resistance : Option Rat := none
  strategist_proposal : Option String := none
  strategist_direction : Option String := none
  strategist_justification : Option String := none
  skeptic_critique : Option String := none
  skeptic_risks : Option (List String) := none
  skeptic_recommendation : Option String := none
  executor_decision : Option String := none
  executor_final_params : Option ExecutorFinalParams := none
  executor_reasoning : Option String := none
  executor_decision_text : Option String := none
  error_message : Option String := none
deriving DecidableEq, Repr

/-- The trailing cleanup every node runs on success:
`if state.get("error_message"): state["error_message"] = None`. -/
def clearError (state : AgentState) : AgentState :=
  if truthy state.error_message then { state with error_message := none } else state

/-- `crypto_news_sentiment_node`: fetch headlines, then ask the LLM for a
summary/opinion/sentiment.  The fetch outcome and the LLM outcome are the
external-collaborator parameters; headline formatting only feeds the
prompt and is elided. -/
def crypto_news_sentiment_node (fetch : Except String Unit)
    (llm : Except String NewsSentimentAnalysis) (state : AgentState) : AgentState :=
  match fetch with
  | .error exc => { state with error_message := some ("Error obteniendo noticias: " ++ exc) }
  | .ok _ =>
    match llm with
    | .error exc =>
        { state with error_message := some ("Error en análisis de noticias: " ++ exc) }
    | .ok analysis =>
        clearError { state with
          news_context_summary := some analysis.context_summary
          news_market_opinion := some analysis.market_opinion
          news_sentiment := some analysis.sentiment }

/-- `technical_analysis_node`: fetch the 25- and 200-period SMA series,
require both non-empty, then ask the LLM.  Series timestamps only feed the
prompt, so a series is a list of values. -/
def technical_analysis_node (sma25 sma200 : Except String (List Rat))
    (llm : Except String TechnicalAnalysis) (state : AgentState) : AgentState :=
  match sma25 with
  | .error exc => { state with error_message := some ("Error obteniendo SMA 25: " ++ exc) }
  | .ok sma_25_values =>
    match sma200 with
    | .error exc => { state with error_message := some ("Error obteniendo SMA 200: " ++ exc) }
    | .ok sma_200_values =>
      if sma_25_values.isEmpty || sma_200_values.isEmpty then
        { state with error_message := some "No se obtuvieron suficientes datos de SMAs" }
      else
        match llm with
        | .error exc =>
            { state with error_message := some ("Error en análisis técnico: " ++ exc) }
        | .ok analysis =>
            clearError { state with
              technical_analysis_trend := some analysis.trend_analysis
              technical_analysis_crossover := some analysis.crossover_status
              technical_analysis_momentum := some analysis.market_momentum
              technical_analysis_conclusion := some analysis.conclusion }

/-- `fear_greed_node`: fetch the latest index value and store it. -/
def fear_greed_node (response : Except String (List FearGreedValue))
    (state : AgentState) : AgentState :=
  match response with
  | .error exc =>
      { state with error_message := some ("Error consultando Fear & Greed Index: " ++ exc) }
  | .ok data =>
    match data with
    | [] => { state with error_message := some "No se obtuvieron datos del Fear & Greed Index" }
    | latest :: _ =>
        clearError { state with
          fear_greed_index := some latest.value
          fear_greed_classification := some latest.value_classification }

/-- `_calculate_distance_percentage`: signed percentage distance from the
current price to a target.  The source formats the value as a string with
two decimals and an explicit sign; the embedding keeps the number. -/
def _calculate_distance_percentage (current_price target_price : Rat) : Rat :=
  if current_price = 0 then 0
  else (target_price - current_price) / current_price * 100

/-- One iteration of the nearest-support loop.  The accumulator is the pair
(nearest price so far, best distance so far), with `none` distance standing
for the initial `float("inf")`. -/
def support_step (current_price : Rat) (acc : Option Rat × Option Rat)
    (price : Rat) : Option Rat × Option Rat :=
  if price < current_price then
    let distance := current_price - price
    let closer := match acc.2 with
      | none => true
      | some best => decide (distance < best)
    if closer then (some price, some distance) else acc
  else acc

/-- One iteration of the nearest-resistance loop. -/
def resistance_step (current_price : Rat) (acc : Option Rat × Option Rat)
    (price : Rat) : Option Rat × Option Rat :=
  if price > current_price then
    let distance := price - current_price
    let closer := match acc.2 with
      | none => true
      | some best => decide (distance < best)
    if closer then (some price, some distance) else acc
  else acc

/-- The nearest-support scan of `support_resistance_node`. -/
def nearest_support_loop (current_price : Rat) (supports : List Rat) : Option Rat :=
  (supports.foldl (support_step current_price) (none, none)).1

/-- The nearest-resistance scan of `support_resistance_node`. -/
def nearest_resistance_loop (current_price : Rat) (resistances : List Rat) : Option Rat :=
  (resistances.foldl (resistance_step current_price) (none, none)).1

/-- `support_resistance_node`: fetch the current price (external, `none`
when the client fails), load candidate zone prices from the database,
scan for the nearest support below and resistance above, and fail only
when both are missing.  The interpolated formatted price inside the last
error message is elided. -/
def support_resistance_node (current_price : Option Rat)
    (supports resistances : List Rat) (state : AgentState) : AgentState :=
  let symbol := (symbols_or state.symbols ["BTCUSD"]).headD "BTCUSD"
  match current_price with
  | none =>
      { state with error_message := some ("No se pudo obtener el precio actual de " ++ symbol) }
  | some price =>
    let state1 := { state with current_price := some price }
    if supports.isEmpty && resistances.isEmpty then
      let msg := "No se encontraron zonas para " ++ symbol ++ " en la base de datos"
      { state1 with error_message := some msg }
    else
      let nearest_support := nearest_support_loop price supports
      let nearest_resistance := nearest_resistance_loop price resistances
      let state2 := match nearest_support with
        | some s => { state1 with
            nearest_support := some s
            distance_to_support := some (_calculate_distance_percentage price s) }
        | none => state1
      let state3 := match nearest_resistance with
        | some r => { state2 with
            nearest_resistance := some r
            distance_to_resistance := some (_calculate_distance_percentage price r) }
        | none => state2
      if nearest_support = none ∧ nearest_resistance = none then
        let msg := "No se encontraron zonas válidas para " ++ symbol
        { state3 with error_message := some msg }
      else clearError state3

/-- The `strategist_proposal` text assembled by the Strategist node. -/
def strategist_proposal_text (proposal : StrategistProposal) : String :=
  let key_factors_text :=
    String.intercalate "\n" (proposal.key_factors.map (fun factor => "  • " ++ factor))
  "\n📋 PROPUESTA DEL ESTRATEGA\n\nDirección: " ++ proposal.direction.toUpper ++
    "\nConfianza: " ++ proposal.confidence_level.toUpper ++
    "\n\nJustificación:\n" ++ proposal.justification ++
    "\n\nFactores Clave:\n" ++ key_factors_text ++ "\n"

/-- `strategist_agent_node`: build the market-context prompt (reads the
state and the ledger, prompt text elided), call the LLM, store the
proposal.  `state.get("symbols", default)[0]` raises when the stored
symbol list is present but empty; that uncaught exception is `none`. -/
def strategist_agent_node (llm : Except String StrategistProposal)
    (state : AgentState) : Option AgentState :=
  match (state.symbols.getD ["BTCUSD"]).head? with
  | none => none
  | some _ =>
    match llm with
    | .error exc => some { state with error_message := some ("Error en Agente Estratega: " ++ exc) }
    | .ok proposal =>
        some (clearError { state with
          strategist_direction := some proposal.direction
          strategist_justification := some proposal.justification
          strategist_proposal := some (strategist_proposal_text proposal) })

/-- The `skeptic_critique` text assembled by the Skeptic node. -/
def skeptic_critique_text (critique : SkepticCritique) : String :=
  let risks_text :=
    String.intercalate "\n" (critique.identified_risks.map (fun risk => "  ⚠️  " ++ risk))
  let contradictions_text :=
    if critique.contradictions.isEmpty then ""
    else "\n\n🔍 CONTRADICCIONES ENCONTRADAS:\n" ++
      String.intercalate "\n" (critique.contradictions.map (fun c => "  • " ++ c))
  let missing_text :=
    if critique.missing_considerations.isEmpty then ""
    else "\n\n❌ FACTORES IGNORADOS:\n" ++
      String.intercalate "\n" (critique.missing_considerations.map (fun m => "  • " ++ m))
  "\n😈 CRÍTICA DEL ABOGADO DEL DIABLO\n\nEvaluación: " ++
    (critique.overall_assessment.toUpper.replace "_" " ") ++
    "\n\nCrítica Principal:\n" ++ critique.main_critique ++
    "\n\n🚨 RIESGOS IDENTIFICADOS:\n" ++ risks_text ++ contradictions_text ++ missing_text ++
    "\n\n💡 Recomendación:\n" ++ critique.recommendation ++ "\n"

/-- `skeptic_agent_node`: requires the Strategist direction (truthiness
check); on success stores recommendation, risks and critique text.  The
market-context and position prompt text is elided; the ledger reads only
feed the prompt. -/
def skeptic_agent_node (llm : Except String SkepticCritique)
    (state : AgentState) : AgentState :=
  if truthy state.strategist_direction = false then
    { state with error_message := some "No hay propuesta del Estratega para criticar" }
  else
    match llm with
    | .error exc =>
        { state with error_message := some ("Error en Agente Abogado del Diablo: " ++ exc) }
    | .ok critique =>
        clearError { state with
          skeptic_recommendation := some critique.overall_assessment
          skeptic_risks := some critique.identified_risks
          skeptic_critique := some (skeptic_critique_text critique) }

/-- The position-context dictionary built by `_get_current_position_context`
in the committee nodes. -/
structure PositionContext where
  has_position : Bool
  current_quantity : Rat
  average_buy_price : Option Rat
  available_usd : Rat
  can_buy : Bool
  can_sell : Bool
deriving DecidableEq, Repr

/-- `_get_current_position_context` (executor/skeptic/strategist nodes):
position quantity, balance and, when a position is open, the average buy
price, from the ledger. -/
def _get_current_position_context (ledger : List Transaction)
    (symbol : String) : PositionContext :=
  let quantity := get_position_quantity ledger symbol
  let available_usd := get_available_balance ledger
  let avg_buy_price := if quantity > 0 then get_average_buy_price ledger symbol else none
  { has_position := decide (quantity > 0)
    current_quantity := quantity
    average_buy_price := avg_buy_price
    available_usd := available_usd
    can_buy := decide (available_usd > 0)
    can_sell := decide (quantity > 0) }

/-- The override note appended when a tentative BUY is coerced to HOLD. -/
def buy_override_note : String :=
  "\n\nNOTA: La decisión original era BUY, pero se cambió a HOLD porque ya existe una posición abierta. Evitamos sobreexposición."

/-- The override note appended when a tentative SELL is coerced to HOLD. -/
def sell_override_note : String :=
  "\n\nNOTA: La decisión original era SELL, pero se cambió a HOLD porque no hay posición para vender."

/-- The `executor_decision_text` assembled by the Executor node. -/
def executor_decision_text_of (decision : ExecutorDecision)
    (position : PositionContext) : String :=
  let strategist_points_text :=
    String.intercalate "\n" (decision.strategist_points_accepted.map (fun p => "    ✓ " ++ p))
  let skeptic_points_text :=
    String.intercalate "\n" (decision.skeptic_points_accepted.map (fun p => "    ✓ " ++ p))
  let key_factors_text :=
    String.intercalate "\n" (decision.key_factors_for_decision.map (fun f => "    • " ++ f))
  "\n⚖️ DECISIÓN FINAL DEL JUEZ\n\n🎯 DECISIÓN: " ++ decision.final_decision.toUpper ++
    "\n\n📊 Posición Actual: " ++
    (if position.has_position then "SÍ - Ya tienes posición" else "NO - Sin posición") ++
    "\n⚠️  Evaluación de Riesgo: " ++ decision.risk_assessment.toUpper ++
    "\n💯 Confianza: " ++ decision.confidence_level.toUpper ++
    "\n\n📝 RAZONAMIENTO:\n" ++ decision.reasoning ++
    "\n\n✅ ARGUMENTOS DEL ESTRATEGA ACEPTADOS:\n" ++ strategist_points_text ++
    "\n\n⚠️  ARGUMENTOS DEL ABOGADO DEL DIABLO ACEPTADOS:\n" ++ skeptic_points_text ++
    "\n\n🔑 FACTORES CLAVE PARA LA DECISIÓN:\n" ++ key_factors_text ++ "\n"

/-- Step 5 of the Executor node ("Validar coherencia de la decisión con la
posición"): the two sequential coercion checks applied unconditionally to
the tentative decision. -/
def _apply_position_coercion (decision0 : ExecutorDecision)
    (position : PositionContext) : ExecutorDecision :=
  let decision1 :=
    if decision0.final_decision = "buy" ∧ position.has_position then
      { decision0 with
        final_decision := "hold"
        reasoning := "[AJUSTADO POR SEGURIDAD] " ++ decision0.reasoning ++ buy_override_note }
    else decision0
  if decision1.final_decision = "sell" ∧ ¬ position.has_position then
    { decision1 with
      final_decision := "hold"
      reasoning := "[AJUSTADO POR SEGURIDAD] " ++ decision1.reasoning ++ sell_override_note }
  else decision1

/-- `executor_agent_node`: requires the Strategist direction and the
Skeptic recommendation, queries the ledger for the position context,
calls the LLM, then unconditionally applies the position-coercion rule
before storing the final decision.  `state.get("symbols", default)[0]`
raises when the stored symbol list is present but empty; that uncaught
exception is `none`. -/
def executor_agent_node (ledger : List Transaction)
    (llm : Except String ExecutorDecision) (state : AgentState) : Option AgentState :=
  if truthy state.strategist_direction = false then
    some { state with error_message := some "No hay propuesta del Estratega para evaluar" }
  else if truthy state.skeptic_recommendation = false then
    some { state with error_message := some "No hay crítica del Abogado del Diablo para evaluar" }
  else
    match (state.symbols.getD ["BTCUSD"]).head? with
    | none => none
    | some symbol =>
      let position := _get_current_position_context ledger symbol
      match llm with
      | .error exc => some { state with error_message := some ("Error en Agente Juez: " ++ exc) }
      | .ok decision0 =>
        let decision2 := _apply_position_coercion decision0 position
        some (clearError { state with
          executor_decision := some decision2.final_decision
          executor_reasoning := some decision2.reasoning
          executor_final_params := some
            { risk_assessment := decision2.risk_assessment
              confidence_level := decision2.confidence_level
              position_context_considered := decision2.position_context_considered
              has_current_position := position.has_position
              current_quantity := position.current_quantity
              available_usd := position.available_usd }
          executor_decision_text := some (executor_decision_text_of decision2 position) })

/-- The per-run outcomes of every external collaborator, fixed before the
run: client fetches, LLM calls, and the ledger contents read by the
committee nodes. -/
structure ExternalInputs where
  newsFetch : Except String Unit
  newsLLM : Except String NewsSentimentAnalysis
  sma25 : Except String (List Rat)
  sma200 : Except String (List Rat)
  techLLM : Except String TechnicalAnalysis
  fearGreed : Except String (List FearGreedValue)
  currentPrice : Option Rat
  supports : List Rat
  resistances : List Rat
  strategistLLM : Except String StrategistProposal
  skepticLLM : Except String SkepticCritique
  executorLLM : Except String ExecutorDecision
  ledger : List Transaction

/-- `run_trading_analysis` over the compiled graph
(`app/agent/graph/trading_graph.py`): news → technical → fear&greed →
support/resistance → strategist → skeptic → executor, strictly
sequentially over one fresh state.  `none` is an uncaught exception
escaping the graph. -/
def run_trading_analysis (ext : ExternalInputs) (symbols : List String)
    (news_limit : Int) : Option AgentState :=
  let s0 : AgentState := { symbols := some symbols, news_limit := some news_limit }
  let s1 := crypto_news_sentiment_node ext.newsFetch ext.newsLLM s0
  let s2 := technical_analysis_node ext.sma25 ext.sma200 ext.techLLM s1
  let s3 := fear_greed_node ext.fearGreed s2
  let s4 := support_resistance_node ext.currentPrice ext.supports ext.resistances s3
  match strategist_agent_node ext.strategistLLM s4 with
  | none => none
  | some s5 =>
    let s6 := skeptic_agent_node ext.skepticLLM s5
    executor_agent_node ext.ledger ext.executorLLM s6

/-- `NewsAnalysisResult` of `app/controller/trading/schemas.py`. -/
structure NewsAnalysisResult where
  sentiment : Option String := none
  context_summary : Option String := none
  market_opinion : Option String := none
deriving DecidableEq, Repr

/-- `TechnicalAnalysisResult` of `app/controller/trading/schemas.py`. -/
structure TechnicalAnalysisResult where
  trend_analysis : Option String := none
  crossover_status : Option String := none
  momentum : Option String := none
  conclusion : Option String := none
deriving DecidableEq, Repr

/-- `FearGreedResult` of `app/controller/trading/schemas.py`. -/
structure FearGreedResult where
  index : Option Int := none
  classification : Option String := none
deriving DecidableEq, Repr

/-- `SupportResistanceResult` of `app/controller/trading/schemas.py`.  The
distance fields are declared as strings there; as everywhere in this
embedding the formatted percentage is kept as its numeric value. -/
structure SupportResistanceResult where
  nearest_support : Option Rat := none
  distance_to_support : Option Rat := none
  nearest_resistance : Option Rat := none
  distance_to_resistance : Option Rat := none
deriving DecidableEq, Repr

/-- `StrategistProposalResult` of `app/controller/trading/schemas.py`.
The route only passes direction/justification/proposal_text; the price
fields keep their declared `None` defaults. -/
structure StrategistProposalResult where
  direction : Option String := none
  entry_price : Option Rat := none
  stop_loss : Option Rat := none
  take_profit : Option Rat := none
  risk_reward_ratio : Option String := none
  justification : Option String := none
  proposal_text : Option String := none
deriving DecidableEq, Repr

/-- `TradingAnalysisResponse` of `app/controller/trading/schemas.py`: the
declared response fields are success, symbols, error_message and the five
analysis sub-results.  The schema declares **no** `skeptic_critique` or
`executor_decision` fields (they appear only in its `json_schema_extra`
example), and pydantic v2 defaults to ignoring unknown constructor keyword
arguments, so the committee outputs never reach the response. -/
structure TradingAnalysisResponse where
  success : Bool
  symbols : List String
  error_message : Option String := none
  news_analysis : Option NewsAnalysisResult := none
  technical_analysis : Option TechnicalAnalysisResult := none
  fear_greed : Option FearGreedResult := none
  support_resistance : Option SupportResistanceResult := none
  strategist_proposal : Option StrategistProposalResult := none
deriving DecidableEq, Repr

/-- The success response built by `analyze_trading` in
`app/controller/trading/routes.py`: only the keyword arguments matching
declared schema fields survive pydantic validation.  The route also passes
`skeptic_critique=...` and `executor_decision=...` dictionaries, but the
schema declares no such fields and pydantic silently drops them, so this
constructor reads none of the Critic or Arbiter state fields. -/
def build_success_response (symbols : List String)
    (final_state : AgentState) : TradingAnalysisResponse :=
  { success := true
    symbols := symbols
    error_message := none
    news_analysis := some
      { sentiment := final_state.news_sentiment
        context_summary := final_state.news_context_summary
        market_opinion := final_state.news_market_opinion }
    technical_analysis := some
      { trend_analysis := final_state.technical_analysis_trend
        crossover_status := final_state.technical_analysis_crossover
        momentum := final_state.technical_analysis_momentum
        conclusion := final_state.technical_analysis_conclusion }
    fear_greed := some
      { index := final_state.fear_greed_index
        classification := final_state.fear_greed_classification }
    support_resistance := some
      { nearest_support := final_state.nearest_support
        distance_to_support := final_state.distance_to_support
        nearest_resistance := final_state.nearest_resistance
        distance_to_resistance := final_state.distance_to_resistance }
    strategist_proposal := some
      { direction := final_state.strategist_direction
        justification := final_state.strategist_justification
        proposal_text := final_state.strategist_proposal } }

/-- Overwrite exactly the context fields written by the Critic and the
Arbiter, leaving everything else unchanged; used to state that the route
response is independent of the committee outputs. -/
def set_committee_fields (s : AgentState) (dec reas : Option String)
    (fp : Option ExecutorFinalParams) (txt : Option String)
    (crit : Option String) (risks : Option (List String))
    (recmd : Option String) : AgentState :=
  { s with
    executor_decision := dec
    executor_reasoning := reas
    executor_final_params := fp
    executor_decision_text := txt
    skeptic_critique := crit
    skeptic_risks := risks
    skeptic_recommendation := recmd }

/-- `analyze_trading`: run the graph; if the final error slot is truthy,
report failure with that message, otherwise report success with the
declared analysis results.  `none` is the HTTP 500 branch for an exception
escaping the graph. -/
def analyze_trading (ext : ExternalInputs) (symbols : List String)
    (news_limit : Int) : Option TradingAnalysisResponse :=
  match run_trading_analysis ext symbols news_limit with
  | none => none
  | some final_state =>
    if truthy final_state.error_message then
      some { success := false, symbols := symbols,
             error_message := final_state.error_message }
    else
      some (build_success_response symbols final_state)

/-- A concrete ledger row used by several concrete instances below: the row
appended by `buy("BTCUSD", 1, 10000)` on a fresh ledger, whose balance
snapshot is exactly 0 and whose position is 1 BTCUSD. -/
def c4_zero_tx : Transaction :=
  { symbol := "BTCUSD"
    action := .buy
    quantity := 1
    price := 10000
    total := 10000
    portfolio_value := some 20000
    available_usd := some 0
    pnl := none
    reason := none
    agent_name := "SuperBot" }

/-- The row appended by `sell("BTCUSD", 1, 60000)` on the ledger
`[c4_zero_tx]`: note the balance read treats the zero snapshot as absent,
so the revenue is added to the default 10000. -/
def c10_tx : Transaction :=
  { symbol := "BTCUSD"
    action := .sell
    quantity := 1
    price := 60000
    total := 60000
    portfolio_value := some 70000
    available_usd := some 70000
    pnl := some 50000
    reason := none
    agent_name := "SuperBot" }

/-- The row appended by `buy("BTCUSD", 1, 1000)` on a fresh ledger. -/
def c6_tx : Transaction :=
  { symbol := "BTCUSD"
    action := .buy
    quantity := 1
    price := 1000
    total := 1000
    portfolio_value := some 11000
    available_usd := some 9000
    pnl := none
    reason := none
    agent_name := "SuperBot" }

/-- A concrete tentative Executor decision proposing a buy, used to
exercise the coercion rule on a ledger with an open position. -/
def w_exec_decision : ExecutorDecision :=
  { final_decision := "buy"
    reasoning := "Se observa confluencia tecnica y de sentimiento que favorece la entrada."
    strategist_points_accepted := ["Confluencia tecnica"]
    skeptic_points_accepted := ["Riesgo de correccion"]
    key_factors_for_decision := ["Posicion actual", "Momentum"]
    risk_assessment := "medium"
    confidence_level := "high"
    position_context_considered := true }

/-- A concrete run context as it reaches the Executor: both upstream
committee outputs present, no decision yet. -/
def w_exec_state : AgentState :=
  { symbols := some ["BTCUSD"]
    strategist_direction := some "buy"
    skeptic_recommendation := some "reject" }

/-- A concrete structured news analysis, used to instantiate a stage run. -/
def w_news_analysis : NewsSentimentAnalysis :=
  { context_summary := "Contexto favorable", market_opinion := "Opinion alcista"
    sentiment := "positive" }

/-- A concrete bundle of external-collaborator outcomes for a run whose
first stage succeeds. -/
def w_ext : ExternalInputs :=
  { newsFetch := Except.ok ()
    newsLLM := Except.ok w_news_analysis
    sma25 := Except.ok [1]
    sma200 := Except.ok [1]
    techLLM := Except.error "na"
    fearGreed := Except.error "na"
    currentPrice := none
    supports := []
    resistances := []
    strategistLLM := Except.error "na"
    skepticLLM := Except.error "na"
    executorLLM := Except.error "na"
    ledger := [] }

/-! ## Theorems -/

/-- Evaluation helper: the two transaction actions are distinct. -/
theorem action_buy_ne_sell : (Action.buy = Action.sell) = False := by simp

/-- Evaluation helper: the two transaction actions are distinct. -/
theorem action_sell_ne_buy : (Action.sell = Action.buy) = False := by simp

/-- Evaluation helper: a fresh ledger reports the default balance. -/
theorem get_available_balance_nil : get_available_balance [] = 10000 := rfl

/-- Evaluation helper: the concrete one-row ledger holds one BTCUSD. -/
theorem get_position_quantity_c4 : get_position_quantity [c4_zero_tx] "BTCUSD" = 1 := by
  simp [get_position_quantity, c4_zero_tx, List.filter]

/-- Claim C2: `buy(symbol, q, p)` with `q > 0`, `p > 0` raises
InsufficientFunds iff `q*p > balance()`; otherwise (including the boundary
`q*p = balance()`) it succeeds, appending a transaction whose balance
snapshot is `balance() - q*p` and whose PnL is none. -/
theorem buy_insufficient_funds_contract (ledger : List Transaction) (symbol : String)
    (q p : Rat) (reason : Option String) (agent : String) (hq : 0 < q) (hp : 0 < p) :
    ((∃ e, buyOp ledger symbol q p reason agent = Except.error e) ↔
        q * p > get_available_balance ledger)
    ∧ (q * p > get_available_balance ledger →
        buyOp ledger symbol q p reason agent =
          Except.error (LedgerError.insufficientFunds (q * p) (get_available_balance ledger)))
    ∧ (q * p ≤ get_available_balance ledger →
        ∃ tx, buyOp ledger symbol q p reason agent = Except.ok (tx, ledger ++ [tx])
          ∧ tx.available_usd = some (get_available_balance ledger - q * p)
          ∧ tx.pnl = none) := by
  by_cases h : q * p > get_available_balance ledger
  · have he : buyOp ledger symbol q p reason agent =
        Except.error (LedgerError.insufficientFunds (q * p) (get_available_balance ledger)) := by
      simp only [buyOp]; rw [if_pos h]
    exact ⟨⟨fun _ => h, fun _ => ⟨_, he⟩⟩, fun _ => he, fun hle => absurd h (not_lt.mpr hle)⟩
  · push_neg at h
    refine ⟨⟨?_, fun hgt => absurd hgt (not_lt.mpr h)⟩,
        fun hgt => absurd hgt (not_lt.mpr h), fun _ => ?_⟩
    · rintro ⟨e, he⟩
      simp only [buyOp] at he
      rw [if_neg (not_lt.mpr h)] at he
      cases he
    · exact ⟨_, by simp only [buyOp]; rw [if_neg (not_lt.mpr h)], rfl, rfl⟩

/-- Claim C2 witness: on a fresh ledger (balance 10000), buying exactly the
whole balance succeeds, with snapshot 0 and no PnL. -/
theorem buy_insufficient_funds_contract_witness :
    ∃ tx, buyOp [] "BTCUSD" 1 10000 none "SuperBot" = Except.ok (tx, [] ++ [tx])
      ∧ tx.available_usd = some (get_available_balance [] - 1 * 10000)
      ∧ tx.pnl = none :=
  (buy_insufficient_funds_contract [] "BTCUSD" 1 10000 none "SuperBot"
    (by norm_num) (by norm_num)).2.2 (by rw [get_available_balance_nil]; norm_num)

/-- Claim C3: `sell(symbol, q, p)` with `q > 0`, `p > 0` raises
InsufficientQuantity iff `q > position(symbol)`; otherwise (including the
boundary `q = position(symbol)`) it succeeds, appending a transaction whose
balance snapshot is `balance() + q*p`. -/
theorem sell_insufficient_quantity_contract (ledger : List Transaction) (symbol : String)
    (q p : Rat) (reason : Option String) (agent : String) (hq : 0 < q) (hp : 0 < p) :
    ((∃ e, sellOp ledger symbol q p reason agent = Except.error e) ↔
        q > get_position_quantity ledger symbol)
    ∧ (q > get_position_quantity ledger symbol →
        sellOp ledger symbol q p reason agent =
          Except.error (LedgerError.insufficientQuantity q (get_position_quantity ledger symbol)))
    ∧ (q ≤ get_position_quantity ledger symbol →
        ∃ tx, sellOp ledger symbol q p reason agent = Except.ok (tx, ledger ++ [tx])
          ∧ tx.available_usd = some (get_available_balance ledger + q * p)) := by
  by_cases h : q > get_position_quantity ledger symbol
  · have he : sellOp ledger symbol q p reason agent =
        Except.error (LedgerError.insufficientQuantity q (get_position_quantity ledger symbol)) := by
      simp only [sellOp]; rw [if_pos h]
    exact ⟨⟨fun _ => h, fun _ => ⟨_, he⟩⟩, fun _ => he, fun hle => absurd h (not_lt.mpr hle)⟩
  · push_neg at h
    refine ⟨⟨?_, fun hgt => absurd hgt (not_lt.mpr h)⟩,
        fun hgt => absurd hgt (not_lt.mpr h), fun _ => ?_⟩
    · rintro ⟨e, he⟩
      simp only [sellOp] at he
      rw [if_neg (not_lt.mpr h)] at he
      cases he
    · exact ⟨_, by simp only [sellOp]; rw [if_neg (not_lt.mpr h)], rfl⟩

/-- Claim C3 witness: selling exactly the whole position succeeds and adds
the revenue to the balance snapshot. -/
theorem sell_insufficient_quantity_contract_witness :
    ∃ tx, sellOp [c4_zero_tx] "BTCUSD" 1 60000 none "SuperBot" =
        Except.ok (tx, [c4_zero_tx] ++ [tx])
      ∧ tx.available_usd = some (get_available_balance [c4_zero_tx] + 1 * 60000) :=
  (sell_insufficient_quantity_contract [c4_zero_tx] "BTCUSD" 1 60000 none "SuperBot"
    (by norm_num) (by norm_num)).2.2 (by rw [get_position_quantity_c4])

/-- Claim C4 counterexample: buying the entire default balance appends a
transaction whose snapshot is 0; on the resulting one-row ledger,
`balance()` returns the default 10000 instead of the most recent snapshot
0, because the source treats a zero snapshot as falsy
(`float(balance) if balance else 10000.0`).  So the default is not
returned *exactly* when the ledger is empty. -/
theorem balance_default_counterexample :
    (buyOp [] "BTCUSD" 1 10000 none "SuperBot").toOption.map
        (fun r => (r.1.available_usd, get_available_balance r.2, r.2.length)) =
      some (some 0, 10000, 1) := by
  norm_num [buyOp, get_available_balance, calculate_portfolio_value,
    get_position_quantity, Except.toOption, List.filterMap,
    action_buy_ne_sell, action_sell_ne_buy, List.filter_cons, List.filter_nil]

/-- Claim C4 amended: `balance()` never fails; it returns 10000 on an empty
ledger, and on a ledger ending in a transaction with a non-null snapshot
`b` it returns `b` unless `b = 0`, in which case it falls back to the
default 10000 (the source conflates a zero snapshot with an absent one). -/
theorem balance_amended (l0 : List Transaction) (t : Transaction) (b : Rat)
    (hb : t.available_usd = some b) :
    get_available_balance ([] : List Transaction) = 10000
    ∧ get_available_balance (l0 ++ [t]) = (if b = 0 then 10000 else b) := by
  refine ⟨rfl, ?_⟩
  unfold get_available_balance
  rw [List.filterMap_append]
  have hone : List.filterMap (fun t => t.available_usd) [t] = [b] := by
    simp [List.filterMap, hb]
  rw [hone, List.getLast?_concat]

/-- Claim C4 amended witness: the one-row ledger whose snapshot is 0
reports the default balance. -/
theorem balance_amended_witness :
    get_available_balance ([] : List Transaction) = 10000
    ∧ get_available_balance ([] ++ [c4_zero_tx]) = (if (0 : Rat) = 0 then 10000 else 0) :=
  balance_amended [] c4_zero_tx 0 rfl

/-- Claim C5: over any ledger whose buy rows for the symbol all have
positive quantity (the data-model invariant), `averageBuyPrice` is the
cost-weighted mean of the buy rows and is none exactly when there are no
buy rows; a single buy of Q@P gives P, two buys give (Q1P1+Q2P2)/(Q1+Q2);
and every successful sell records PnL = (sellPrice − average) × sellQty,
with none when no average exists. -/
theorem average_buy_price_contract (l : List Transaction) (symbol : String)
    (hq : ∀ t ∈ buys_of l symbol, 0 < t.quantity) :
    (buys_of l symbol = [] → get_average_buy_price l symbol = none)
    ∧ (buys_of l symbol ≠ [] →
        get_average_buy_price l symbol =
          some (((buys_of l symbol).map (fun t => t.quantity * t.price)).sum /
                ((buys_of l symbol).map (fun t => t.quantity)).sum))
    ∧ (∀ t, buys_of l symbol = [t] → get_average_buy_price l symbol = some t.price)
    ∧ (∀ t1 t2, buys_of l symbol = [t1, t2] →
        get_average_buy_price l symbol =
          some ((t1.quantity * t1.price + t2.quantity * t2.price) /
                (t1.quantity + t2.quantity)))
    ∧ (∀ q p reason agent tx l2,
        sellOp l symbol q p reason agent = Except.ok (tx, l2) →
          (∀ avg, get_average_buy_price l symbol = some avg →
              tx.pnl = some ((p - avg) * q))
          ∧ (get_average_buy_price l symbol = none → tx.pnl = none)) := by
  have hsum : buys_of l symbol ≠ [] →
      ((buys_of l symbol).map (fun t => t.quantity)).sum ≠ 0 := by
    intro hne
    refine ne_of_gt (List.sum_pos _ ?_ ?_)
    · intro x hx
      obtain ⟨t, ht, rfl⟩ := List.mem_map.mp hx
      exact hq t ht
    · simpa using hne
  refine ⟨?_, ?_, ?_, ?_, ?_⟩
  · intro h
    simp [get_average_buy_price, h]
  · intro hne
    unfold get_average_buy_price
    rw [if_neg (hsum hne)]
  · intro t ht
    have hne : buys_of l symbol ≠ [] := by simp [ht]
    have hqt : t.quantity ≠ 0 := ne_of_gt (hq t (ht ▸ List.mem_singleton_self t))
    unfold get_average_buy_price
    rw [if_neg (hsum hne), ht]
    simp only [List.map_cons, List.map_nil, List.sum_cons, List.sum_nil, add_zero]
    rw [mul_comm, mul_div_assoc, div_self hqt, mul_one]
  · intro t1 t2 ht
    have hne : buys_of l symbol ≠ [] := by simp [ht]
    unfold get_average_buy_price
    rw [if_neg (hsum hne), ht]
    simp
  · intro q p reason agent tx l2 hsell
    simp only [sellOp] at hsell
    split at hsell
    · exact absurd hsell (by simp)
    · rw [Except.ok.injEq, Prod.mk.injEq] at hsell
      obtain ⟨htx, -⟩ := hsell
      subst htx
      constructor
      · intro avg havg
        simp [havg]
      · intro havg
        simp [havg]

/-- Claim C5 witness: on the one-row ledger, the average buy price is the
single buy price, and the follow-up sell records the expected PnL. -/
theorem average_buy_price_contract_witness :
    get_average_buy_price [c4_zero_tx] "BTCUSD" = some c4_zero_tx.price :=
  (average_buy_price_contract [c4_zero_tx] "BTCUSD"
      (by intro t ht; simp [buys_of, List.filter, c4_zero_tx] at ht; subst ht; norm_num [c4_zero_tx])).2.2.1
    c4_zero_tx (by simp [buys_of, List.filter, c4_zero_tx])

/-- Claim C10: a successful sell appends only a sell row, so the derived
average buy price of every symbol is unchanged by the sell. -/
theorem sell_preserves_average (l : List Transaction) (symbol : String) (q p : Rat)
    (reason : Option String) (agent : String) (tx : Transaction) (l2 : List Transaction)
    (h : sellOp l symbol q p reason agent = Except.ok (tx, l2)) :
    ∀ s, get_average_buy_price l2 s = get_average_buy_price l s := by
  intro s
  simp only [sellOp] at h
  split at h
  · exact absurd h (by simp)
  · rw [Except.ok.injEq, Prod.mk.injEq] at h
    obtain ⟨htx, hl2⟩ := h
    subst hl2
    simp [get_average_buy_price, buys_of, List.filter_append, List.filter]

/-- Claim C10 witness: the concrete sell of the whole position leaves the
average buy price of BTCUSD unchanged. -/
theorem sell_preserves_average_witness :
    get_average_buy_price ([c4_zero_tx] ++ [c10_tx]) "BTCUSD" =
      get_average_buy_price [c4_zero_tx] "BTCUSD" :=
  sell_preserves_average [c4_zero_tx] "BTCUSD" 1 60000 none "SuperBot" c10_tx
    ([c4_zero_tx] ++ [c10_tx])
    (by norm_num [sellOp, get_position_quantity, get_average_buy_price, buys_of,
      get_available_balance, calculate_portfolio_value, c4_zero_tx, c10_tx,
      action_buy_ne_sell, action_sell_ne_buy,
      List.filter_cons, List.filter_nil, List.filterMap])
    "BTCUSD"

/-- Claim C6 counterexample: on a fresh ledger, `buy("BTCUSD", 1, 1000)`
records a portfolio-value snapshot of 11000, while the consistent
valuation — post-transaction `balance() + position×price`, equal to the
pre-buy cash plus pre-buy position times price — is 10000: the newly
bought lot is counted twice (its cost is still inside the pre-buy cash
term and is added again as the purchase cost). -/
theorem buy_portfolio_snapshot_counterexample :
    (buyOp [] "BTCUSD" 1 1000 none "SuperBot").toOption.map
        (fun r => (r.1.portfolio_value, calculate_portfolio_value r.2 [("BTCUSD", 1000)],
          get_available_balance [] + get_position_quantity [] "BTCUSD" * 1000)) =
      some (some 11000, 10000, 10000) := by
  norm_num [buyOp, get_available_balance, calculate_portfolio_value,
    get_position_quantity, Except.toOption, List.filterMap,
    action_buy_ne_sell, action_sell_ne_buy, List.filter_cons, List.filter_nil]

/-- Claim C6 amended: the portfolio-value snapshot of a successful buy is
the pre-buy valuation at the buy price *plus the purchase cost again*:
pre-buy `balance()` plus (when a position is open) pre-buy position times
price, plus `q*p`.  It therefore exceeds the consistent post-transaction
valuation by exactly `q*p`; the other snapshot fields remain consistent. -/
theorem buy_portfolio_snapshot_amended (l : List Transaction) (symbol : String)
    (q p : Rat) (reason : Option String) (agent : String) (tx : Transaction)
    (l2 : List Transaction) (h : buyOp l symbol q p reason agent = Except.ok (tx, l2)) :
    tx.portfolio_value = some (calculate_portfolio_value l [(symbol, p)] + q * p)
    ∧ (0 < get_position_quantity l symbol →
        tx.portfolio_value =
          some ((get_available_balance l + get_position_quantity l symbol * p) + q * p))
    ∧ (get_position_quantity l symbol ≤ 0 →
        tx.portfolio_value = some (get_available_balance l + q * p))
    ∧ tx.available_usd = some (get_available_balance l - q * p)
    ∧ l2 = l ++ [tx] := by
  simp only [buyOp] at h
  split at h
  · exact absurd h (by simp)
  · rw [Except.ok.injEq, Prod.mk.injEq] at h
    obtain ⟨htx, hl2⟩ := h
    subst htx
    subst hl2
    refine ⟨rfl, fun hpos => ?_, fun hng => ?_, rfl, rfl⟩
    · simp [calculate_portfolio_value, hpos]
    · simp [calculate_portfolio_value, not_lt.mpr hng]

/-- Claim C6 amended witness: the concrete fresh-ledger buy satisfies the
amended snapshot formula (no open position case). -/
theorem buy_portfolio_snapshot_amended_witness :
    c6_tx.portfolio_value = some (calculate_portfolio_value [] [("BTCUSD", 1000)] + 1 * 1000)
    ∧ (0 < get_position_quantity [] "BTCUSD" →
        c6_tx.portfolio_value =
          some ((get_available_balance [] + get_position_quantity [] "BTCUSD" * 1000) + 1 * 1000))
    ∧ (get_position_quantity [] "BTCUSD" ≤ 0 →
        c6_tx.portfolio_value = some (get_available_balance [] + 1 * 1000))
    ∧ c6_tx.available_usd = some (get_available_balance [] - 1 * 1000)
    ∧ [c6_tx] = [] ++ [c6_tx] :=
  buy_portfolio_snapshot_amended [] "BTCUSD" 1 1000 none "SuperBot" c6_tx [c6_tx]
    (by norm_num [buyOp, get_available_balance, calculate_portfolio_value,
      get_position_quantity, c6_tx, List.filterMap,
      action_buy_ne_sell, action_sell_ne_buy, List.filter_cons, List.filter_nil])

/-- Helper: the success-path cleanup never touches the stored decision. -/
theorem clearError_executor_decision (s : AgentState) :
    (clearError s).executor_decision = s.executor_decision := by
  unfold clearError; split <;> rfl

/-- Helper: the success-path cleanup never touches the stored reasoning. -/
theorem clearError_executor_reasoning (s : AgentState) :
    (clearError s).executor_reasoning = s.executor_reasoning := by
  unfold clearError; split <;> rfl

/-- Helper: after the cleanup the error slot is null, provided the incoming
slot was not the (unreachable) empty-string error. -/
theorem clearError_error_message (s : AgentState) (h : s.error_message ≠ some "") :
    (clearError s).error_message = none := by
  unfold clearError truthy
  cases he : s.error_message with
  | none => simp [he]
  | some m =>
    have hm : m ≠ "" := fun hm => h (by rw [he, hm])
    simp [he, hm]

/-- Helper: with an open position the coerced decision is never buy. -/
theorem coercion_not_buy (d : ExecutorDecision) (pos : PositionContext)
    (h : pos.has_position = true) :
    (_apply_position_coercion d pos).final_decision ≠ "buy" := by
  unfold _apply_position_coercion
  by_cases hb : d.final_decision = "buy" <;> simp [hb, h]

/-- Helper: with no position the coerced decision is never sell. -/
theorem coercion_not_sell (d : ExecutorDecision) (pos : PositionContext)
    (h : pos.has_position = false) :
    (_apply_position_coercion d pos).final_decision ≠ "sell" := by
  unfold _apply_position_coercion
  by_cases hb : d.final_decision = "buy"
  · simp [hb, h]
  · by_cases hsell : d.final_decision = "sell" <;> simp [hb, h, hsell]

/-- Helper: a tentative buy with an open position is coerced to hold with
the over-exposure note appended. -/
theorem coercion_buy_hold (d : ExecutorDecision) (pos : PositionContext)
    (h : pos.has_position = true) (hb : d.final_decision = "buy") :
    _apply_position_coercion d pos =
      { d with final_decision := "hold", reasoning := "[AJUSTADO POR SEGURIDAD] " ++ d.reasoning ++ buy_override_note } := by
  unfold _apply_position_coercion
  simp [hb, h]

/-- Helper: a tentative sell with no position is coerced to hold with the
no-position note appended. -/
theorem coercion_sell_hold (d : ExecutorDecision) (pos : PositionContext)
    (h : pos.has_position = false) (hs : d.final_decision = "sell") :
    _apply_position_coercion d pos =
      { d with final_decision := "hold", reasoning := "[AJUSTADO POR SEGURIDAD] " ++ d.reasoning ++ sell_override_note } := by
  unfold _apply_position_coercion
  have hb : ¬ (d.final_decision = "buy") := by rw [hs]; simp
  simp [hb, h, hs]

/-- Claim C9: invoked on a context lacking the Proposer direction, the
Critic returns the context unchanged except for setting the error slot;
in particular no critique, risks or recommendation fields are written. -/
theorem skeptic_missing_direction_frame (llm : Except String SkepticCritique)
    (state : AgentState) (h : state.strategist_direction = none) :
    skeptic_agent_node llm state =
      { state with error_message := some "No hay propuesta del Estratega para criticar" }
    ∧ (skeptic_agent_node llm state).skeptic_critique = state.skeptic_critique
    ∧ (skeptic_agent_node llm state).skeptic_risks = state.skeptic_risks
    ∧ (skeptic_agent_node llm state).skeptic_recommendation = state.skeptic_recommendation := by
  have hg : truthy state.strategist_direction = false := by rw [h]; rfl
  unfold skeptic_agent_node
  rw [hg]
  simp

/-- Claim C9 witness: the fresh (empty) context is returned unchanged
except for the error slot. -/
theorem skeptic_missing_direction_frame_witness :
    skeptic_agent_node (Except.error "fallo") ({} : AgentState) =
      { ({} : AgentState) with
        error_message := some "No hay propuesta del Estratega para criticar" } :=
  (skeptic_missing_direction_frame (Except.error "fallo") {} rfl).1

/-- Claim C1: whenever the Executor node completes on a run context with no
prior decision, the stored final decision is never buy while an open
position exists and never sell while the position is zero; a tentative buy
with an open position (resp. sell with no position) is unconditionally
coerced to hold with the corresponding override note prepended/appended to
the reasoning text. -/
theorem executor_position_coercion (ledger : List Transaction)
    (llm : Except String ExecutorDecision) (state : AgentState) (symbol : String)
    (hdec : state.executor_decision = none)
    (hsym : (state.symbols.getD ["BTCUSD"]).head? = some symbol) :
    ∀ s', executor_agent_node ledger llm state = some s' →
      ((0 < get_position_quantity ledger symbol → s'.executor_decision ≠ some "buy")
      ∧ (get_position_quantity ledger symbol = 0 → s'.executor_decision ≠ some "sell")
      ∧ (∀ d, llm = Except.ok d →
          truthy state.strategist_direction = true →
          truthy state.skeptic_recommendation = true →
          d.final_decision = "buy" → 0 < get_position_quantity ledger symbol →
            s'.executor_decision = some "hold"
            ∧ s'.executor_reasoning =
                some ("[AJUSTADO POR SEGURIDAD] " ++ d.reasoning ++ buy_override_note))
      ∧ (∀ d, llm = Except.ok d →
          truthy state.strategist_direction = true →
          truthy state.skeptic_recommendation = true →
          d.final_decision = "sell" → get_position_quantity ledger symbol = 0 →
            s'.executor_decision = some "hold"
            ∧ s'.executor_reasoning =
                some ("[AJUSTADO POR SEGURIDAD] " ++ d.reasoning ++ sell_override_note))) := by
  intro s' hs'
  unfold executor_agent_node at hs'
  by_cases h1 : truthy state.strategist_direction = false
  · rw [if_pos h1] at hs'
    rw [Option.some.injEq] at hs'
    subst hs'
    refine ⟨fun _ => by simp [hdec], fun _ => by simp [hdec],
      fun d _ hdir => ?_, fun d _ hdir => ?_⟩ <;>
      (rw [h1] at hdir; cases hdir)
  · rw [if_neg h1] at hs'
    by_cases h2 : truthy state.skeptic_recommendation = false
    · rw [if_pos h2] at hs'
      rw [Option.some.injEq] at hs'
      subst hs'
      refine ⟨fun _ => by simp [hdec], fun _ => by simp [hdec],
        fun d _ _ hrec => ?_, fun d _ _ hrec => ?_⟩ <;>
        (rw [h2] at hrec; cases hrec)
    · rw [if_neg h2] at hs'
      simp only [hsym] at hs'
      cases llm with
      | error exc =>
        rw [Option.some.injEq] at hs'
        subst hs'
        refine ⟨fun _ => by simp [hdec], fun _ => by simp [hdec],
          fun d hd => ?_, fun d hd => ?_⟩ <;> cases hd
      | ok d =>
        simp only [Option.some.injEq] at hs'
        subst hs'
        constructor
        · intro hpos
          have hhp : (_get_current_position_context ledger symbol).has_position = true := by
            simp [_get_current_position_context, hpos]
          rw [clearError_executor_decision]
          simp only [ne_eq, Option.some.injEq]
          exact coercion_not_buy d _ hhp
        constructor
        · intro hpos
          have hhp : (_get_current_position_context ledger symbol).has_position = false := by
            simp [_get_current_position_context, hpos]
          rw [clearError_executor_decision]
          simp only [ne_eq, Option.some.injEq]
          exact coercion_not_sell d _ hhp
        constructor
        · intro d0 hd0 _ _ hb hpos
          rw [Except.ok.injEq] at hd0
          subst hd0
          have hhp : (_get_current_position_context ledger symbol).has_position = true := by
            simp [_get_current_position_context, hpos]
          rw [clearError_executor_decision, clearError_executor_reasoning]
          rw [coercion_buy_hold d _ hhp hb]
          exact ⟨rfl, rfl⟩
        · intro d0 hd0 _ _ hsell hpos
          rw [Except.ok.injEq] at hd0
          subst hd0
          have hhp : (_get_current_position_context ledger symbol).has_position = false := by
            simp [_get_current_position_context, hpos]
          rw [clearError_executor_decision, clearError_executor_reasoning]
          rw [coercion_sell_hold d _ hhp hsell]
          exact ⟨rfl, rfl⟩

/-- Claim C1 witness: with one open BTCUSD position and a tentative buy,
the completed Executor stage stores hold with the override note. -/
theorem executor_position_coercion_witness :
    (executor_agent_node [c4_zero_tx] (Except.ok w_exec_decision) w_exec_state).map
        (fun s => (s.executor_decision, s.executor_reasoning)) =
      some (some "hold",
        some ("[AJUSTADO POR SEGURIDAD] " ++ w_exec_decision.reasoning ++ buy_override_note)) := by
  rcases hEval : executor_agent_node [c4_zero_tx] (Except.ok w_exec_decision) w_exec_state
    with _ | s'
  · exfalso
    simp [executor_agent_node, truthy, w_exec_state] at hEval
  · have h := executor_position_coercion [c4_zero_tx] (Except.ok w_exec_decision)
      w_exec_state "BTCUSD" rfl rfl s' hEval
    have h3 := h.2.2.1 w_exec_decision rfl (by rfl) (by rfl) rfl
      (by rw [get_position_quantity_c4]; norm_num)
    simp only [Option.map_some']
    rw [h3.1, h3.2]

/-- Helper: invariant of the nearest-support loop once a candidate below
the price has been found — the accumulator always holds the maximum
candidate seen so far that lies below the price. -/
theorem support_loop_go (P : Rat) (l : List Rat) :
    ∀ b : Rat, b < P →
      ∃ m, l.foldl (support_step P) (some b, some (P - b)) = (some m, some (P - m))
        ∧ m < P ∧ (m = b ∨ m ∈ l) ∧ b ≤ m ∧ ∀ x ∈ l, x < P → x ≤ m := by
  induction l with
  | nil => exact fun b hb => ⟨b, rfl, hb, Or.inl rfl, le_refl b, by simp⟩
  | cons x xs ih =>
    intro b hb
    rw [List.foldl_cons]
    by_cases hx : x < P
    · by_cases hbx : b < x
      · have hstep : support_step P (some b, some (P - b)) x = (some x, some (P - x)) := by
          unfold support_step
          rw [if_pos hx]
          have hc : P - x < P - b := by linarith
          simp [hc]
        rw [hstep]
        obtain ⟨m, hm, hmP, hmem, hxm, hub⟩ := ih x hx
        refine ⟨m, hm, hmP, ?_, le_of_lt (lt_of_lt_of_le hbx hxm), ?_⟩
        · rcases hmem with h | h
          · exact Or.inr (h ▸ List.mem_cons_self x xs)
          · exact Or.inr (List.mem_cons_of_mem x h)
        · intro y hy hyP
          rcases List.mem_cons.mp hy with rfl | hy2
          · exact hxm
          · exact hub y hy2 hyP
      · push_neg at hbx
        have hstep : support_step P (some b, some (P - b)) x = (some b, some (P - b)) := by
          unfold support_step
          rw [if_pos hx]
          have hc : ¬ (P - x < P - b) := by linarith
          simp [hc]
        rw [hstep]
        obtain ⟨m, hm, hmP, hmem, hbm, hub⟩ := ih b hb
        refine ⟨m, hm, hmP, ?_, hbm, ?_⟩
        · rcases hmem with h | h
          · exact Or.inl h
          · exact Or.inr (List.mem_cons_of_mem x h)
        · intro y hy hyP
          rcases List.mem_cons.mp hy with rfl | hy2
          · exact le_trans hbx hbm
          · exact hub y hy2 hyP
    · have hstep : support_step P (some b, some (P - b)) x = (some b, some (P - b)) := by
        unfold support_step; rw [if_neg hx]
      rw [hstep]
      obtain ⟨m, hm, hmP, hmem, hbm, hub⟩ := ih b hb
      refine ⟨m, hm, hmP, ?_, hbm, ?_⟩
      · rcases hmem with h | h
        · exact Or.inl h
        · exact Or.inr (List.mem_cons_of_mem x h)
      · intro y hy hyP
        rcases List.mem_cons.mp hy with rfl | hy2
        · exact absurd hyP hx
        · exact hub y hy2 hyP

/-- Helper: when no candidate lies below the price, the support loop ends
with an empty accumulator. -/
theorem support_loop_of_none (P : Rat) :
    ∀ l : List Rat, (∀ x ∈ l, ¬ x < P) →
      l.foldl (support_step P) (none, none) = (none, none) := by
  intro l
  induction l with
  | nil => intro _; rfl
  | cons x xs ih =>
    intro h
    rw [List.foldl_cons]
    have hx := h x (List.mem_cons_self x xs)
    have hstep : support_step P (none, none) x = (none, none) := by
      unfold support_step; rw [if_neg hx]
    rw [hstep]
    exact ih (fun y hy => h y (List.mem_cons_of_mem x hy))

/-- Helper: when some candidate lies below the price, the support loop
returns the maximum candidate below the price. -/
theorem support_loop_of_some (P : Rat) :
    ∀ l : List Rat, (∃ x ∈ l, x < P) →
      ∃ m, l.foldl (support_step P) (none, none) = (some m, some (P - m))
        ∧ m < P ∧ m ∈ l ∧ ∀ x ∈ l, x < P → x ≤ m := by
  intro l
  induction l with
  | nil => rintro ⟨x, hx, -⟩; cases hx
  | cons x xs ih =>
    rintro ⟨y, hy, hyP⟩
    rw [List.foldl_cons]
    by_cases hx : x < P
    · have hstep : support_step P (none, none) x = (some x, some (P - x)) := by
        unfold support_step; rw [if_pos hx]; rfl
      rw [hstep]
      obtain ⟨m, hm, hmP, hmem, hxm, hub⟩ := support_loop_go P xs x hx
      refine ⟨m, hm, hmP, ?_, ?_⟩
      · rcases hmem with h | h
        · exact h ▸ List.mem_cons_self x xs
        · exact List.mem_cons_of_mem x h
      · intro z hz hzP
        rcases List.mem_cons.mp hz with rfl | hz2
        · exact hxm
        · exact hub z hz2 hzP
    · have hstep : support_step P (none, none) x = (none, none) := by
        unfold support_step; rw [if_neg hx]
      rw [hstep]
      have hex : ∃ z ∈ xs, z < P := by
        rcases List.mem_cons.mp hy with rfl | hy2
        · exact absurd hyP hx
        · exact ⟨y, hy2, hyP⟩
      obtain ⟨m, hm, hmP, hmem, hub⟩ := ih hex
      refine ⟨m, hm, hmP, List.mem_cons_of_mem x hmem, ?_⟩
      intro z hz hzP
      rcases List.mem_cons.mp hz with rfl | hz2
      · exact absurd hzP hx
      · exact hub z hz2 hzP

/-- Helper: invariant of the nearest-resistance loop once a candidate above
the price has been found — the accumulator always holds the minimum
candidate seen so far that lies above the price. -/
theorem resistance_loop_go (P : Rat) (l : List Rat) :
    ∀ b : Rat, P < b →
      ∃ m, l.foldl (resistance_step P) (some b, some (b - P)) = (some m, some (m - P))
        ∧ P < m ∧ (m = b ∨ m ∈ l) ∧ m ≤ b ∧ ∀ x ∈ l, P < x → m ≤ x := by
  induction l with
  | nil => exact fun b hb => ⟨b, rfl, hb, Or.inl rfl, le_refl b, by simp⟩
  | cons x xs ih =>
    intro b hb
    rw [List.foldl_cons]
    by_cases hx : x > P
    · by_cases hbx : x < b
      · have hstep : resistance_step P (some b, some (b - P)) x = (some x, some (x - P)) := by
          unfold resistance_step
          rw [if_pos hx]
          have hc : x - P < b - P := by linarith
          simp [hc]
        rw [hstep]
        obtain ⟨m, hm, hmP, hmem, hxm, hub⟩ := ih x hx
        refine ⟨m, hm, hmP, ?_, (lt_of_le_of_lt hxm hbx).le, ?_⟩
        · rcases hmem with h | h
          · exact Or.inr (h ▸ List.mem_cons_self x xs)
          · exact Or.inr (List.mem_cons_of_mem x h)
        · intro y hy hyP
          rcases List.mem_cons.mp hy with rfl | hy2
          · exact hxm
          · exact hub y hy2 hyP
      · push_neg at hbx
        have hstep : resistance_step P (some b, some (b - P)) x = (some b, some (b - P)) := by
          unfold resistance_step
          rw [if_pos hx]
          have hc : ¬ (x - P < b - P) := by linarith
          simp [hc]
        rw [hstep]
        obtain ⟨m, hm, hmP, hmem, hbm, hub⟩ := ih b hb
        refine ⟨m, hm, hmP, ?_, hbm, ?_⟩
        · rcases hmem with h | h
          · exact Or.inl h
          · exact Or.inr (List.mem_cons_of_mem x h)
        · intro y hy hyP
          rcases List.mem_cons.mp hy with rfl | hy2
          · exact le_trans hbm hbx
          · exact hub y hy2 hyP
    · have hstep : resistance_step P (some b, some (b - P)) x = (some b, some (b - P)) := by
        unfold resistance_step; rw [if_neg hx]
      rw [hstep]
      obtain ⟨m, hm, hmP, hmem, hbm, hub⟩ := ih b hb
      refine ⟨m, hm, hmP, ?_, hbm, ?_⟩
      · rcases hmem with h | h
        · exact Or.inl h
        · exact Or.inr (List.mem_cons_of_mem x h)
      · intro y hy hyP
        rcases List.mem_cons.mp hy with rfl | hy2
        · exact absurd hyP hx
        · exact hub y hy2 hyP

/-- Helper: when no candidate lies above the price, the resistance loop
ends with an empty accumulator. -/
theorem resistance_loop_of_none (P : Rat) :
    ∀ l : List Rat, (∀ x ∈ l, ¬ x > P) →
      l.foldl (resistance_step P) (none, none) = (none, none) := by
  intro l
  induction l with
  | nil => intro _; rfl
  | cons x xs ih =>
    intro h
    rw [List.foldl_cons]
    have hx := h x (List.mem_cons_self x xs)
    have hstep : resistance_step P (none, none) x = (none, none) := by
      unfold resistance_step; rw [if_neg hx]
    rw [hstep]
    exact ih (fun y hy => h y (List.mem_cons_of_mem x hy))

/-- Helper: when some candidate lies above the price, the resistance loop
returns the minimum candidate above the price. -/
theorem resistance_loop_of_some (P : Rat) :
    ∀ l : List Rat, (∃ x ∈ l, x > P) →
      ∃ m, l.foldl (resistance_step P) (none, none) = (some m, some (m - P))
        ∧ P < m ∧ m ∈ l ∧ ∀ x ∈ l, P < x → m ≤ x := by
  intro l
  induction l with
  | nil => rintro ⟨x, hx, -⟩; cases hx
  | cons x xs ih =>
    rintro ⟨y, hy, hyP⟩
    rw [List.foldl_cons]
    by_cases hx : x > P
    · have hstep : resistance_step P (none, none) x = (some x, some (x - P)) := by
        unfold resistance_step; rw [if_pos hx]; rfl
      rw [hstep]
      obtain ⟨m, hm, hmP, hmem, hxm, hub⟩ := resistance_loop_go P xs x hx
      refine ⟨m, hm, hmP, ?_, ?_⟩
      · rcases hmem with h | h
        · exact h ▸ List.mem_cons_self x xs
        · exact List.mem_cons_of_mem x h
      · intro z hz hzP
        rcases List.mem_cons.mp hz with rfl | hz2
        · exact hxm
        · exact hub z hz2 hzP
    · have hstep : resistance_step P (none, none) x = (none, none) := by
        unfold resistance_step; rw [if_neg hx]
      rw [hstep]
      have hex : ∃ z ∈ xs, z > P := by
        rcases List.mem_cons.mp hy with rfl | hy2
        · exact absurd hyP hx
        · exact ⟨y, hy2, hyP⟩
      obtain ⟨m, hm, hmP, hmem, hub⟩ := ih hex
      refine ⟨m, hm, hmP, List.mem_cons_of_mem x hmem, ?_⟩
      intro z hz hzP
      rcases List.mem_cons.mp hz with rfl | hz2
      · exact absurd hzP hx
      · exact hub z hz2 hzP

/-- Claim C7: given a current price and candidate zone prices, the stage
stores nearest support = max of the candidates strictly below the price
(left unset when none is below) and nearest resistance = min of the
candidates strictly above (left unset when none is above), and it records
the no-valid-zones error exactly when both are undefined after scanning. -/
theorem support_resistance_contract (P : Rat) (supports resistances : List Rat)
    (state : AgentState)
    (hns : state.nearest_support = none)
    (hnr : state.nearest_resistance = none)
    (herr : state.error_message = none) :
    ((support_resistance_node (some P) supports resistances state).nearest_support =
        nearest_support_loop P supports)
    ∧ ((support_resistance_node (some P) supports resistances state).nearest_resistance =
        nearest_resistance_loop P resistances)
    ∧ ((support_resistance_node (some P) supports resistances state).error_message ≠ none ↔
        (nearest_support_loop P supports = none ∧ nearest_resistance_loop P resistances = none))
    ∧ ((∀ x ∈ supports, ¬ x < P) → nearest_support_loop P supports = none)
    ∧ (∀ m, nearest_support_loop P supports = some m →
        m ∈ supports ∧ m < P ∧ ∀ x ∈ supports, x < P → x ≤ m)
    ∧ ((∃ x ∈ supports, x < P) → nearest_support_loop P supports ≠ none)
    ∧ ((∀ x ∈ resistances, ¬ x > P) → nearest_resistance_loop P resistances = none)
    ∧ (∀ m, nearest_resistance_loop P resistances = some m →
        m ∈ resistances ∧ P < m ∧ ∀ x ∈ resistances, P < x → m ≤ x)
    ∧ ((∃ x ∈ resistances, x > P) → nearest_resistance_loop P resistances ≠ none) := by
  have hchar_s_none : (∀ x ∈ supports, ¬ x < P) → nearest_support_loop P supports = none := by
    intro h
    unfold nearest_support_loop
    rw [support_loop_of_none P supports h]
  have hchar_s_some : ∀ m, nearest_support_loop P supports = some m →
      m ∈ supports ∧ m < P ∧ ∀ x ∈ supports, x < P → x ≤ m := by
    intro m hm
    by_cases hex : ∃ x ∈ supports, x < P
    · obtain ⟨m', hm', hmP, hmem, hub⟩ := support_loop_of_some P supports hex
      have heq : nearest_support_loop P supports = some m' := by
        unfold nearest_support_loop
        rw [hm']
      rw [heq, Option.some.injEq] at hm
      subst hm
      exact ⟨hmem, hmP, hub⟩
    · push_neg at hex
      rw [hchar_s_none (fun x hx => not_lt.mpr (hex x hx))] at hm
      cases hm
  have hchar_s_ne : (∃ x ∈ supports, x < P) → nearest_support_loop P supports ≠ none := by
    intro hex
    obtain ⟨m', hm', -, -, -⟩ := support_loop_of_some P supports hex
    unfold nearest_support_loop
    rw [hm']
    simp
  have hchar_r_none : (∀ x ∈ resistances, ¬ x > P) →
      nearest_resistance_loop P resistances = none := by
    intro h
    unfold nearest_resistance_loop
    rw [resistance_loop_of_none P resistances h]
  have hchar_r_some : ∀ m, nearest_resistance_loop P resistances = some m →
      m ∈ resistances ∧ P < m ∧ ∀ x ∈ resistances, P < x → m ≤ x := by
    intro m hm
    by_cases hex : ∃ x ∈ resistances, x > P
    · obtain ⟨m', hm', hmP, hmem, hub⟩ := resistance_loop_of_some P resistances hex
      have heq : nearest_resistance_loop P resistances = some m' := by
        unfold nearest_resistance_loop
        rw [hm']
      rw [heq, Option.some.injEq] at hm
      subst hm
      exact ⟨hmem, hmP, hub⟩
    · push_neg at hex
      rw [hchar_r_none (fun x hx => not_lt.mpr (hex x hx))] at hm
      cases hm
  have hchar_r_ne : (∃ x ∈ resistances, x > P) →
      nearest_resistance_loop P resistances ≠ none := by
    intro hex
    obtain ⟨m', hm', -, -, -⟩ := resistance_loop_of_some P resistances hex
    unfold nearest_resistance_loop
    rw [hm']
    simp
  refine ⟨?_, ?_, ?_, hchar_s_none, hchar_s_some, hchar_s_ne,
    hchar_r_none, hchar_r_some, hchar_r_ne⟩ <;>
  · by_cases hempty : (supports.isEmpty && resistances.isEmpty) = true
    · rw [Bool.and_eq_true] at hempty
      obtain ⟨h1, h2⟩ := hempty
      rw [List.isEmpty_iff] at h1 h2
      subst h1
      subst h2
      simp [support_resistance_node, nearest_support_loop, nearest_resistance_loop, hns, hnr]
    · rcases hs0 : nearest_support_loop P supports with _ | sv <;>
        rcases hr0 : nearest_resistance_loop P resistances with _ | rv <;>
        simp [support_resistance_node, hempty, hs0, hr0, hns, hnr, herr, clearError, truthy]

/-- Claim C7 witness (spec Scenario B): price 96000, supports 94000 and
95500, resistances 98000 and 99000 give nearest support 95500 and nearest
resistance 98000, with no error recorded. -/
theorem support_resistance_contract_witness :
    ((support_resistance_node (some 96000) [94000, 95500] [98000, 99000]
        ({} : AgentState)).nearest_support = nearest_support_loop 96000 [94000, 95500])
    ∧ nearest_support_loop (96000 : Rat) [94000, 95500] = some 95500
    ∧ nearest_resistance_loop (96000 : Rat) [98000, 99000] = some 98000 := by
  refine ⟨(support_resistance_contract 96000 [94000, 95500] [98000, 99000] {}
    rfl rfl rfl).1, ?_, ?_⟩
  · norm_num [nearest_support_loop, support_step, List.foldl_cons, List.foldl_nil]
  · norm_num [nearest_resistance_loop, resistance_step, List.foldl_cons, List.foldl_nil]

/-- Claim C8 amended: the error slot is single-valued and last-writer-wins.
Every stage of the pipeline that completes successfully leaves the shared
error slot null on return — overwriting any non-null error an earlier
stage recorded — and the HTTP entry point reports success=false with the
last recorded error message exactly when the slot is non-null at the end
of the run.  On success it reports success=true with the market-analysis
results and the Strategist proposal only: the response schema declares no
Critic or Arbiter fields, so the success response is invariant under the
committee outputs (last conjunct).  (The hypothesis `≠ some ""` excludes
the empty-string error, which no stage ever writes.) -/
theorem error_slot_last_writer_wins (ext : ExternalInputs) :
    (∀ state u a, state.error_message ≠ some "" →
        (crypto_news_sentiment_node (Except.ok u) (Except.ok a) state).error_message = none)
    ∧ (∀ state v25 v200 a, state.error_message ≠ some "" → v25 ≠ [] → v200 ≠ [] →
        (technical_analysis_node (Except.ok v25) (Except.ok v200) (Except.ok a)
          state).error_message = none)
    ∧ (∀ state latest rest, state.error_message ≠ some "" →
        (fear_greed_node (Except.ok (latest :: rest)) state).error_message = none)
    ∧ (∀ state P supports resistances, state.error_message ≠ some "" →
        ¬ (nearest_support_loop P supports = none ∧
            nearest_resistance_loop P resistances = none) →
        (support_resistance_node (some P) supports resistances state).error_message = none)
    ∧ (∀ state p s', state.error_message ≠ some "" →
        strategist_agent_node (Except.ok p) state = some s' → s'.error_message = none)
    ∧ (∀ state c, state.error_message ≠ some "" →
        truthy state.strategist_direction = true →
        (skeptic_agent_node (Except.ok c) state).error_message = none)
    ∧ (∀ state d s', state.error_message ≠ some "" →
        truthy state.strategist_direction = true →
        truthy state.skeptic_recommendation = true →
        executor_agent_node ext.ledger (Except.ok d) state = some s' →
          s'.error_message = none)
    ∧ (∀ symbols limit final_state,
        run_trading_analysis ext symbols limit = some final_state →
        final_state.error_message ≠ some "" →
        ((final_state.error_message ≠ none →
            analyze_trading ext symbols limit =
              some { success := false, symbols := symbols,
                     error_message := final_state.error_message })
         ∧ (final_state.error_message = none →
            analyze_trading ext symbols limit =
              some (build_success_response symbols final_state)
            ∧ (build_success_response symbols final_state).success = true
            ∧ (build_success_response symbols final_state).error_message = none)))
    ∧ (∀ symbols s dec reas fp txt crit risks recmd,
        build_success_response symbols
            (set_committee_fields s dec reas fp txt crit risks recmd) =
          build_success_response symbols s) := by
  refine ⟨?_, ?_, ?_, ?_, ?_, ?_, ?_, ?_, ?_⟩
  · intro state u a hne
    unfold crypto_news_sentiment_node
    exact clearError_error_message _ hne
  · intro state v25 v200 a hne hv25 hv200
    have h1 : v25.isEmpty = false := by
      cases v25 with
      | nil => exact absurd rfl hv25
      | cons x xs => rfl
    have h2 : v200.isEmpty = false := by
      cases v200 with
      | nil => exact absurd rfl hv200
      | cons x xs => rfl
    unfold technical_analysis_node
    simp only [h1, h2, Bool.or_self, Bool.false_eq_true, if_false]
    exact clearError_error_message _ hne
  · intro state latest rest hne
    unfold fear_greed_node
    exact clearError_error_message _ hne
  · intro state P supports resistances hne hz
    by_cases hempty : (supports.isEmpty && resistances.isEmpty) = true
    · exfalso
      rw [Bool.and_eq_true] at hempty
      obtain ⟨he1, he2⟩ := hempty
      rw [List.isEmpty_iff] at he1 he2
      subst he1
      subst he2
      exact hz ⟨rfl, rfl⟩
    · rcases hs0 : nearest_support_loop P supports with _ | sv <;>
        rcases hr0 : nearest_resistance_loop P resistances with _ | rv
      · exact absurd ⟨hs0, hr0⟩ hz
      all_goals
        simp only [support_resistance_node, hempty, Bool.false_eq_true, if_false, hs0, hr0]
      all_goals
        exact clearError_error_message _ hne
  · intro state p s' hne hs'
    unfold strategist_agent_node at hs'
    rcases hh : (state.symbols.getD ["BTCUSD"]).head? with _ | sym
    · rw [hh] at hs'
      cases hs'
    · rw [hh] at hs'
      simp only [Option.some.injEq] at hs'
      subst hs'
      exact clearError_error_message _ hne
  · intro state c hne hdir
    unfold skeptic_agent_node
    rw [if_neg (by rw [hdir]; simp)]
    exact clearError_error_message _ hne
  · intro state d s' hne hdir hrec hs'
    unfold executor_agent_node at hs'
    rw [if_neg (by rw [hdir]; simp), if_neg (by rw [hrec]; simp)] at hs'
    rcases hh : (state.symbols.getD ["BTCUSD"]).head? with _ | sym
    · rw [hh] at hs'
      cases hs'
    · rw [hh] at hs'
      simp only [Option.some.injEq] at hs'
      subst hs'
      exact clearError_error_message _ hne
  · intro symbols limit final_state hrun hne
    constructor
    · intro hnn
      rcases he : final_state.error_message with _ | m
      · exact absurd he hnn
      · have hm : m ≠ "" := fun hm0 => hne (by rw [he, hm0])
        have ht : truthy final_state.error_message = true := by
          rw [he]
          simp [truthy, hm]
        unfold analyze_trading
        rw [hrun]
        simp only [ht, if_true]
        rw [he]
    · intro hnn
      have ht : truthy final_state.error_message = false := by
        rw [hnn]
        rfl
      refine ⟨?_, rfl, rfl⟩
      unfold analyze_trading
      rw [hrun]
      simp only [ht, Bool.false_eq_true, if_false]
  · intro symbols s dec reas fp txt crit risks recmd
    rfl

/-- Claim C8 witness: a successful news stage overwrites a non-null error
recorded by an earlier stage, leaving the slot null. -/
theorem error_slot_last_writer_wins_witness :
    (crypto_news_sentiment_node (Except.ok ()) (Except.ok w_news_analysis)
        { error_message := some "error previo" }).error_message = none :=
  (error_slot_last_writer_wins w_ext).1 { error_message := some "error previo" } ()
    w_news_analysis (by simp)

/-- Claim C8 counterexample: two successful final run contexts that differ
in the Arbiter final decision (buy vs hold) and in the Critic
recommendation produce literally identical route responses, so the success
response does not report the full decision bundle: the schema of
`TradingAnalysisResponse` declares no `skeptic_critique` or
`executor_decision` fields and pydantic drops those keyword arguments. -/
theorem response_drops_decision_counterexample :
    build_success_response ["BTCUSD"]
        { strategist_direction := some "buy"
          skeptic_recommendation := some "reject"
          executor_decision := some "buy" } =
      build_success_response ["BTCUSD"]
        { strategist_direction := some "buy"
          skeptic_recommendation := some "acceptable"
          executor_decision := some "hold" }
    ∧ (some "buy" : Option String) ≠ some "hold"
    ∧ (some "reject" : Option String) ≠ some "acceptable" :=
  ⟨rfl, by simp, by simp⟩

end SuperBot
